import Mathlib

/-!
Shallow embedding of the core orchestration logic of the Whatsapp-API service:
the session state machine, ban quarantine, circuit breaker and delivery guard
(src/session/sessionManager.ts), the admission-ramp and retry configuration of
the job queue (src/queue/jobQueue.ts), the QR-token endpoints (src/api/server.ts),
and the bootstrap coordination handlers (src/index.ts, src/browser/browserManager.ts).

DOM probes, timers and Redis are represented by explicit inputs and state:
each polling tick receives the sampled DOM signals as data, each fallible
asynchronous read is an `Option`, and Redis keys live in explicit store records.
-/

/-- The session states of `SessionState` in src/session/sessionManager.ts. -/
inductive SessionState where
  | INIT
  | QR_PENDING
  | AUTHENTICATED
  | DISCONNECTED
  | RECONNECTING
  | SUSPECTED_BAN
  | BANNED
  | CIRCUIT_OPEN
deriving DecidableEq, Repr

/-- `FAILURE_THRESHOLD = 5` in sessionManager.ts. -/
def FAILURE_THRESHOLD : Nat := 5

/-- `RESET_TIMEOUT = 300000` milliseconds (5 minutes) in sessionManager.ts. -/
def RESET_TIMEOUT : Nat := 300000

/-- The 30000 ms quarantine re-verification delay of the `setTimeout` in `checkAuth`. -/
def QUARANTINE_DELAY : Nat := 30000

/-- The mutable fields of `SessionManager` that the orchestration logic reads and
writes: `state`, `qrCode`, `isSending`, `failureCount`, `lastFailureTime`. -/
structure Mgr where
  state : SessionState
  qrCode : Option String
  isSending : Bool
  failureCount : Nat
  lastFailureTime : Nat
deriving DecidableEq, Repr

/-- One polling tick's DOM samples: the QR canvas/container selectors and the
`data-ref` attribute read by `checkQR`, the ban keywords in the body text and the
`#pane-side` anchor read by `checkAuth` (which samples `#pane-side` twice, once at
its top and once before the authentication branch), and the `#pane-side` sample of
the disconnect check in the `AUTHENTICATED` branch of the monitor interval. -/
structure DomSignals where
  qrCanvas : Bool
  qrContainer : Bool
  qrData : Option String
  hasBanText : Bool
  hasMainPane : Bool
  hasMainPane2 : Bool
deriving DecidableEq, Repr

/-- `checkQR` in `monitorState`: if a QR selector is present and a fresh `data-ref`
value is read, record it and move to `QR_PENDING`. -/
def checkQR (m : Mgr) (sig : DomSignals) : Mgr :=
  if sig.qrCanvas = true ∨ sig.qrContainer = true then
    match sig.qrData with
    | some d =>
        if m.qrCode ≠ some d then
          { m with qrCode := some d, state := SessionState.QR_PENDING }
        else m
    | none => m
  else m

/-- `checkAuth` in `monitorState`: the quarantine branch (ban text present,
`#pane-side` absent, not already `SUSPECTED_BAN`) moves to `SUSPECTED_BAN` and
starts the single 30 s re-verification timer, then returns; otherwise a present
`#pane-side` while not `AUTHENTICATED` authenticates, clears the QR code and
resets the circuit-breaker count. The second component is the delay of the timer
started by this call, if any. -/
def checkAuth (m : Mgr) (sig : DomSignals) : Mgr × Option Nat :=
  if sig.hasBanText = true ∧ sig.hasMainPane = false ∧ m.state ≠ SessionState.SUSPECTED_BAN then
    ({ m with state := SessionState.SUSPECTED_BAN }, some QUARANTINE_DELAY)
  else if sig.hasMainPane2 = true ∧ m.state ≠ SessionState.AUTHENTICATED then
    ({ m with state := SessionState.AUTHENTICATED, qrCode := none, failureCount := 0 }, none)
  else (m, none)

/-- The quarantine re-verification timer callback in `checkAuth`. `sample` is the
re-read of the ban keywords in the body text, `none` when that DOM read throws
(the surrounding catch ignores the error and schedules nothing). On a confirmed
resample the state becomes `BANNED`; the `banned` event is emitted only after the
audit HTML snapshot `await page.content()` succeeds (`snapshotOk`), because a
throw there jumps to the same swallowing catch before `this.emit('banned')`.
On a cleared resample the state becomes `INIT`. The second component reports
whether the `banned` event was emitted. -/
def quarantineFire (m : Mgr) (sample : Option Bool) (snapshotOk : Bool) : Mgr × Bool :=
  match sample with
  | none => (m, false)
  | some true => ({ m with state := SessionState.BANNED }, snapshotOk)
  | some false => ({ m with state := SessionState.INIT }, false)

/-- What a monitor-interval tick did besides updating the manager: whether it
requested `page.reload()`, whether it evaluated the disconnect check
(`#pane-side` probe in the `AUTHENTICATED` branch), and the delay of a quarantine
timer it started, if any. -/
structure TickActions where
  reloadRequested : Bool
  checkedDisconnect : Bool
  timerStarted : Option Nat
deriving DecidableEq, Repr

/-- One tick of the `setInterval` body in `monitorState`: skip everything in
`BANNED` and `SUSPECTED_BAN`; in `CIRCUIT_OPEN` move to `RECONNECTING`, reset the
count and reload the page once the cooldown has elapsed; in `AUTHENTICATED` skip
while `isSending`, otherwise probe `#pane-side` and fall to `DISCONNECTED` if it
is gone; in all other states run `checkQR` then `checkAuth`. -/
def monitorTick (m : Mgr) (now : Nat) (sig : DomSignals) : Mgr × TickActions :=
  if m.state = SessionState.BANNED ∨ m.state = SessionState.SUSPECTED_BAN then
    (m, ⟨false, false, none⟩)
  else if m.state = SessionState.CIRCUIT_OPEN then
    if now - m.lastFailureTime > RESET_TIMEOUT then
      ({ m with state := SessionState.RECONNECTING, failureCount := 0 }, ⟨true, false, none⟩)
    else (m, ⟨false, false, none⟩)
  else if m.state = SessionState.AUTHENTICATED then
    if m.isSending = true then (m, ⟨false, false, none⟩)
    else if sig.hasMainPane = false then
      ({ m with state := SessionState.DISCONNECTED }, ⟨false, true, none⟩)
    else (m, ⟨false, true, none⟩)
  else
    let m1 := checkQR m sig
    let p := checkAuth m1 sig
    (p.1, ⟨false, false, p.2⟩)

/-- `handleFailure` in sessionManager.ts: increment the count, stamp the failure
time, and trip the breaker to `CIRCUIT_OPEN` when the count reaches the threshold. -/
def handleFailure (m : Mgr) (now : Nat) : Mgr :=
  let m1 := { m with failureCount := m.failureCount + 1, lastFailureTime := now }
  if m1.failureCount ≥ FAILURE_THRESHOLD then
    { m1 with state := SessionState.CIRCUIT_OPEN }
  else m1

/-- The distinct errors thrown by `sendMessage`: the three guard errors
(`Account BANNED`, `Circuit Open - Too many failures`, `Session not authenticated`),
the invalid-recipient error thrown inside the delivery body, and any other
delivery failure (navigation timeout, selector timeout, DOM error). -/
inductive SendErr where
  | accountBanned
  | circuitOpen
  | notAuthenticated
  | invalidRecipient
  | deliveryFailure
deriving DecidableEq, Repr

/-- The outcome of the delivery body once page automation runs: the delivery
sequence finishes (with or without the confirmation bubble being detected — a
missing bubble only triggers the fallback click, the call still returns true),
the invalid-recipient popup wins, or some other step throws. -/
inductive DeliveryOutcome where
  | delivered (bubbleDetected : Bool)
  | invalidRecipient
  | failure
deriving DecidableEq, Repr

/-- Setting `this.isSending = true` at the top of the delivery procedure. -/
def deliveryEnter (m : Mgr) : Mgr := { m with isSending := true }

/-- `sendMessage` in sessionManager.ts. The guards run before `isSending` is set
and before any page operation: `BANNED` throws the account-banned error,
`CIRCUIT_OPEN` the circuit-open error, and every other non-`AUTHENTICATED` state
the not-authenticated error, each leaving the manager untouched. Only in
`AUTHENTICATED` does the delivery body run (third component of the result):
success resets the failure count, a thrown error runs `handleFailure` and
rethrows for the queue to retry, and the `finally` clears `isSending` on every
exit path. -/
def sendMessage (m : Mgr) (outcome : DeliveryOutcome) (now : Nat) :
    Mgr × Except SendErr Bool × Bool :=
  if m.state = SessionState.BANNED then (m, Except.error SendErr.accountBanned, false)
  else if m.state = SessionState.CIRCUIT_OPEN then (m, Except.error SendErr.circuitOpen, false)
  else if m.state ≠ SessionState.AUTHENTICATED then
    (m, Except.error SendErr.notAuthenticated, false)
  else
    let m1 := deliveryEnter m
    match outcome with
    | DeliveryOutcome.delivered _ =>
        ({ m1 with failureCount := 0, isSending := false }, Except.ok true, true)
    | DeliveryOutcome.invalidRecipient =>
        ({ handleFailure m1 now with isSending := false },
         Except.error SendErr.invalidRecipient, true)
    | DeliveryOutcome.failure =>
        ({ handleFailure m1 now with isSending := false },
         Except.error SendErr.deliveryFailure, true)

/-- The day-ramp limit of the worker processor in src/queue/jobQueue.ts:
`Math.min(100 + daysSinceStart * 50, 2000)`. -/
def dynamicLimit (daysSinceStart : Nat) : Nat :=
  min (100 + daysSinceStart * 50) 2000

/-- `daysSinceStart` in the worker processor:
`Math.max(0, Math.floor((now - startDate) / (1000*60*60*24)))`, with both
timestamps in milliseconds. JavaScript's `Math.floor` of the real quotient is
flooring division, `Int.fdiv` here. -/
def daysSinceStart (nowMs startMs : Int) : Int :=
  max 0 ((nowMs - startMs).fdiv 86400000)

/-- The admission decision of the worker processor: the post-increment value of
the daily counter (`redis.incr`, never rolled back) and whether the job is
rejected as cap-exceeded (`currentCount > dynamicLimit` throws
`Daily cap reached`). -/
structure AdmissionResult where
  newCount : Nat
  capExceeded : Bool
deriving DecidableEq, Repr

/-- The admission-control segment of the worker processor: increment today's
counter, then reject exactly when the post-increment value exceeds the ramp
limit for the current `daysSinceStart`. -/
def admitJob (dailyCount : Nat) (nowMs startMs : Int) : AdmissionResult :=
  let d := (daysSinceStart nowMs startMs).toNat
  let limit := dynamicLimit d
  let c := dailyCount + 1
  { newCount := c, capExceeded := decide (c > limit) }

/-- The `defaultJobOptions` of the `whatsapp-messages` queue in jobQueue.ts. -/
structure JobOptions where
  removeOnComplete : Nat
  removeOnFail : Nat
  attempts : Nat
  backoffExponentialDelayMs : Nat
deriving DecidableEq, Repr

/-- `defaultJobOptions` in jobQueue.ts: `removeOnComplete: 1000`,
`removeOnFail: 5000`, `attempts: 3`, `backoff: exponential, delay 1000`. -/
def defaultJobOptions : JobOptions :=
  { removeOnComplete := 1000
    removeOnFail := 5000
    attempts := 3
    backoffExponentialDelayMs := 1000 }

/-- The kinds of error a job can fail with, per the error table of the design:
the four kinds the spec calls terminal, plus the retryable delivery kinds. -/
inductive ErrKind where
  | invalidRecipient
  | notAuthenticated
  | capExceeded
  | circuitOpen
  | accountBanned
  | deliveryTimeout
  | transientDom
deriving DecidableEq, Repr

/-- Whether the repository marks an error kind non-retryable for the queue.
`sendMessage` and the worker processor throw plain `Error`s for every kind
(no `UnrecoverableError`, no per-job `attempts` override in `queue.add`, which
passes only `jobId` and `timestamp`), so no kind is marked. -/
def markedNonRetryable (_k : ErrKind) : Bool := false

/-- Modelled from the spec: the external Durable Queue (BullMQ, not part of this
repository) retries a job whose processor threw as long as fewer attempts than
the configured `attempts` have been made, with automatic backoff. -/
def queueRetriesAfterThrow (opts : JobOptions) (attemptsMade : Nat) : Bool :=
  decide (attemptsMade < opts.attempts)

/-- Modelled from the spec: the exponential backoff delay of the external queue,
base `delay` milliseconds, doubling per made attempt. -/
def backoffDelayMs (opts : JobOptions) (attemptsMade : Nat) : Nat :=
  opts.backoffExponentialDelayMs * 2 ^ (attemptsMade - 1)

/-- Whether a job that just failed with error kind `k` on its `attemptsMade`-th
attempt is retried by the queue as this repository configures it. -/
def jobRetried (k : ErrKind) (attemptsMade : Nat) : Bool :=
  queueRetriesAfterThrow defaultJobOptions attemptsMade && !markedNonRetryable k

/-- The Redis keys of the QR-token endpoints in src/api/server.ts:
`wa:qr-token:active` (the single active token value with its expiry deadline)
and the `qr-token:` keyspace (each issued token with its expiry deadline).
A read at time `now` sees an entry only while `now` is before its deadline,
modelling `EX 60` expiry. -/
structure QrStore where
  active : Option (String × Nat)
  tokens : String → Option Nat

/-- The store with no active token and no token keys. -/
def emptyQrStore : QrStore := { active := none, tokens := fun _ => none }

/-- `redis.get('wa:qr-token:active')` at time `now`. -/
def validActiveTok (s : QrStore) (now : Nat) : Option String :=
  match s.active with
  | some (t, e) => if now < e then some t else none
  | none => none

/-- Whether `redis.get('qr-token:' + tok)` returns a value at time `now`. -/
def tokenValid (s : QrStore) (tok : String) (now : Nat) : Bool :=
  match s.tokens tok with
  | some e => decide (now < e)
  | none => false

/-- The token-manipulating segment of `POST /admin/generate-qr-token`: read the
active token, delete the old token key if one was active, then store the new
token as active and as a token key, both with `EX 60`. -/
def generateQrToken (s : QrStore) (tok : String) (now : Nat) : QrStore :=
  let s1 : QrStore :=
    match validActiveTok s now with
    | some old => { s with tokens := fun k => if k = old then none else s.tokens k }
    | none => s
  { active := some (tok, now + 60)
    tokens := fun k => if k = tok then some (now + 60) else s1.tokens k }

/-- The token check of `GET /qr`: if `qr-token:` lookup fails the store is
unchanged and the read is rejected; otherwise the token is burned (both the
token key and `wa:qr-token:active` are deleted) and the read is accepted. -/
def readQrToken (s : QrStore) (tok : String) (now : Nat) : QrStore × Bool :=
  if tokenValid s tok now = true then
    ({ active := none, tokens := fun k => if k = tok then none else s.tokens k }, true)
  else (s, false)

/-- Every valid `qr-token:` entry is exactly the active token: the single-active
invariant of the QR credential store, indexed by the current time. -/
def qrInv (s : QrStore) (now : Nat) : Prop :=
  ∀ tok e, s.tokens tok = some e → now < e → s.active = some (tok, e)

/-- The observable actions of the bootstrap coordination handlers, in the order
they are awaited. -/
inductive CoordAction where
  | pauseQueue
  | closeBrowser
  | browserLaunched
  | resumeQueue
deriving DecidableEq, Repr

/-- The coordination-relevant system state: the persisted `wa:banned` flag, the
`isPaused` flag of `JobQueue`, whether the browser resource is up, and whether
`sessionManager.init()` has been run by the current process. -/
structure SysState where
  banFlag : Bool
  queuePaused : Bool
  browserUp : Bool
  sessionInited : Bool
deriving DecidableEq, Repr

/-- `BrowserManager.restartBrowser`: `close()` tears the resource down, then
`init()` recreates it; `init` rethrows launch failures after cleanup. Returns
the new state, the action trace, and whether recreation succeeded. -/
def restartBrowser (s : SysState) (launchOk : Bool) : SysState × List CoordAction × Bool :=
  let s1 := { s with browserUp := false }
  if launchOk = true then
    ({ s1 with browserUp := true }, [CoordAction.closeBrowser, CoordAction.browserLaunched], true)
  else (s1, [CoordAction.closeBrowser], false)

/-- The `restart_required` handler in src/index.ts:
`await jobQueue.pause(); await browserManager.restartBrowser(); await jobQueue.resume();`.
A throw from `restartBrowser` rejects the handler before `resume` is reached.
`JobQueue.resume` only flips the flag when it is paused. -/
def onRestartRequired (s : SysState) (launchOk : Bool) : SysState × List CoordAction :=
  let s1 := { s with queuePaused := true }
  let r := restartBrowser s1 launchOk
  if r.2.2 = true then
    ((if r.1.queuePaused = true then { r.1 with queuePaused := false } else r.1),
     CoordAction.pauseQueue :: r.2.1 ++ [CoordAction.resumeQueue])
  else (r.1, CoordAction.pauseQueue :: r.2.1)

/-- The `banned` event handler in src/index.ts:
`await jobQueue.setBanned(true); await jobQueue.pause();`. -/
def onBannedEvent (s : SysState) : SysState :=
  { s with banFlag := true, queuePaused := true }

/-- The startup ban check in `bootstrap` (src/index.ts): if `jobQueue.isBanned()`
reports the persisted flag, return before `sessionManager.init()`, so neither the
session nor the automation resource is initialized; otherwise initialize both. -/
def bootstrapStartup (s : SysState) : SysState :=
  if s.banFlag = true then s
  else { s with sessionInited := true, browserUp := true }

/-- The asynchronous events that reach the coordination layer. -/
inductive SysEvent where
  | bannedEvt
  | restartReq (launchOk : Bool)
  | freshStart
deriving DecidableEq, Repr

/-- One coordination step: dispatch a system event to its handler in src/index.ts. -/
def sysStep (s : SysState) : SysEvent → SysState
  | SysEvent.bannedEvt => onBannedEvent s
  | SysEvent.restartReq ok => (onRestartRequired s ok).1
  | SysEvent.freshStart => bootstrapStartup s

/-- The events that can touch the `SessionManager` fields while a process runs:
a monitor-interval tick, the quarantine timer firing with its DOM re-read
throwing, and a `sendMessage` call from the queue worker. -/
inductive MgrEvent where
  | tick (now : Nat) (sig : DomSignals)
  | timerErr
  | send (o : DeliveryOutcome) (now : Nat)

/-- Apply one manager event. -/
def mgrStep (m : Mgr) : MgrEvent → Mgr
  | MgrEvent.tick now sig => (monitorTick m now sig).1
  | MgrEvent.timerErr => (quarantineFire m none true).1
  | MgrEvent.send o now => (sendMessage m o now).1

/-- C1: `sendMessage` permits delivery iff the session state is `AUTHENTICATED`:
in `BANNED` it throws the account-banned error, in `CIRCUIT_OPEN` the
circuit-open error, and in every other non-`AUTHENTICATED` state the
not-authenticated error, in each case leaving the manager untouched and
attempting no page automation operation; only in `AUTHENTICATED` does the
delivery procedure run. -/
theorem sendMessage_guard_iff (m : Mgr) (o : DeliveryOutcome) (now : Nat) :
    ((sendMessage m o now).2.2 = true ↔ m.state = SessionState.AUTHENTICATED)
    ∧ (m.state = SessionState.BANNED →
        sendMessage m o now = (m, Except.error SendErr.accountBanned, false))
    ∧ (m.state = SessionState.CIRCUIT_OPEN →
        sendMessage m o now = (m, Except.error SendErr.circuitOpen, false))
    ∧ (m.state ≠ SessionState.BANNED → m.state ≠ SessionState.CIRCUIT_OPEN →
        m.state ≠ SessionState.AUTHENTICATED →
        sendMessage m o now = (m, Except.error SendErr.notAuthenticated, false)) := by
  obtain ⟨st, qr, snd, fc, lf⟩ := m
  cases st <;> cases o <;> simp [sendMessage, deliveryEnter]

theorem sendMessage_guard_iff_witness :
    sendMessage ⟨SessionState.BANNED, none, false, 0, 0⟩ DeliveryOutcome.failure 0
      = (⟨SessionState.BANNED, none, false, 0, 0⟩, Except.error SendErr.accountBanned, false)
    ∧ sendMessage ⟨SessionState.CIRCUIT_OPEN, none, false, 0, 0⟩ DeliveryOutcome.failure 0
      = (⟨SessionState.CIRCUIT_OPEN, none, false, 0, 0⟩, Except.error SendErr.circuitOpen, false)
    ∧ sendMessage ⟨SessionState.INIT, none, false, 0, 0⟩ DeliveryOutcome.failure 0
      = (⟨SessionState.INIT, none, false, 0, 0⟩, Except.error SendErr.notAuthenticated, false) :=
  ⟨(sendMessage_guard_iff ⟨SessionState.BANNED, none, false, 0, 0⟩
      DeliveryOutcome.failure 0).2.1 rfl,
   (sendMessage_guard_iff ⟨SessionState.CIRCUIT_OPEN, none, false, 0, 0⟩
      DeliveryOutcome.failure 0).2.2.1 rfl,
   (sendMessage_guard_iff ⟨SessionState.INIT, none, false, 0, 0⟩
      DeliveryOutcome.failure 0).2.2.2 (by decide) (by decide) (by decide)⟩

/-- C2: the two-phase quarantine protocol: observing the ban text with the
authenticated anchor absent (outside `SUSPECTED_BAN`) moves the state to
`SUSPECTED_BAN` and starts the single 30-second re-verification timer; when the
timer fires and resamples the ban text, a persisting signal yields `BANNED` and
a cleared signal yields `INIT` — never `AUTHENTICATED` — whatever manager state
the timer callback finds. -/
theorem quarantine_two_phase (m m' : Mgr) (sig : DomSignals)
    (hA : sig.hasBanText = true) (hB : sig.hasMainPane = false)
    (hs : m.state ≠ SessionState.SUSPECTED_BAN) :
    (checkAuth m sig).1.state = SessionState.SUSPECTED_BAN
    ∧ (checkAuth m sig).2 = some QUARANTINE_DELAY
    ∧ (∀ snap, (quarantineFire m' (some true) snap).1.state = SessionState.BANNED)
    ∧ (∀ snap, (quarantineFire m' (some false) snap).1.state = SessionState.INIT)
    ∧ (∀ b snap, (quarantineFire m' (some b) snap).1.state ≠ SessionState.AUTHENTICATED) := by
  refine ⟨by simp [checkAuth, hA, hB, hs], by simp [checkAuth, hA, hB, hs],
    fun snap => rfl, fun snap => rfl, fun b snap => ?_⟩
  cases b <;> simp [quarantineFire]

theorem quarantine_two_phase_witness :
    (checkAuth ⟨SessionState.INIT, none, false, 0, 0⟩ ⟨false, false, none, true, false, false⟩).1.state
      = SessionState.SUSPECTED_BAN
    ∧ (quarantineFire ⟨SessionState.SUSPECTED_BAN, none, false, 0, 0⟩ (some true) true).1.state
      = SessionState.BANNED
    ∧ (quarantineFire ⟨SessionState.SUSPECTED_BAN, none, false, 0, 0⟩ (some false) true).1.state
      = SessionState.INIT :=
  ⟨(quarantine_two_phase ⟨SessionState.INIT, none, false, 0, 0⟩
      ⟨SessionState.SUSPECTED_BAN, none, false, 0, 0⟩
      ⟨false, false, none, true, false, false⟩ rfl rfl (by decide)).1,
   (quarantine_two_phase ⟨SessionState.INIT, none, false, 0, 0⟩
      ⟨SessionState.SUSPECTED_BAN, none, false, 0, 0⟩
      ⟨false, false, none, true, false, false⟩ rfl rfl (by decide)).2.2.1 true,
   (quarantine_two_phase ⟨SessionState.INIT, none, false, 0, 0⟩
      ⟨SessionState.SUSPECTED_BAN, none, false, 0, 0⟩
      ⟨false, false, none, true, false, false⟩ rfl rfl (by decide)).2.2.2.1 true⟩

/-- C3: the restart handler's pause → recreate → resume sequence is strictly
ordered: the queue is paused first, the browser is torn down and recreated next,
and resume is issued only after recreation succeeds; if recreation fails, resume
never occurs and the queue remains paused. -/
theorem coordinator_pause_recreate_resume (s : SysState) (ok : Bool) :
    (ok = true →
        (onRestartRequired s ok).2
          = [CoordAction.pauseQueue, CoordAction.closeBrowser,
             CoordAction.browserLaunched, CoordAction.resumeQueue]
        ∧ (onRestartRequired s ok).1.queuePaused = false
        ∧ (onRestartRequired s ok).1.browserUp = true)
    ∧ (ok = false →
        (onRestartRequired s ok).2 = [CoordAction.pauseQueue, CoordAction.closeBrowser]
        ∧ CoordAction.resumeQueue ∉ (onRestartRequired s ok).2
        ∧ (onRestartRequired s ok).1.queuePaused = true
        ∧ (onRestartRequired s ok).1.browserUp = false) := by
  cases ok <;> simp [onRestartRequired, restartBrowser]

theorem coordinator_pause_recreate_resume_witness :
    (onRestartRequired ⟨false, false, true, true⟩ true).2
      = [CoordAction.pauseQueue, CoordAction.closeBrowser,
         CoordAction.browserLaunched, CoordAction.resumeQueue]
    ∧ (onRestartRequired ⟨false, false, true, true⟩ false).1.queuePaused = true :=
  ⟨((coordinator_pause_recreate_resume ⟨false, false, true, true⟩ true).1 rfl).1,
   ((coordinator_pause_recreate_resume ⟨false, false, true, true⟩ false).2 rfl).2.2.1⟩

/-- C4: circuit-breaker behaviour: every delivery failure increments the count
and stamps the last-failure time; the state becomes `CIRCUIT_OPEN` exactly when
the incremented count reaches the threshold of 5; a delivery success resets the
count to 0; and while `CIRCUIT_OPEN`, the monitor tick moves to `RECONNECTING`
with the count reset and a page reload requested exactly when more than
300 seconds have elapsed since the last failure. -/
theorem circuit_breaker_behavior (m : Mgr) (now : Nat) (sig : DomSignals) (b : Bool) :
    FAILURE_THRESHOLD = 5
    ∧ RESET_TIMEOUT = 300000
    ∧ (handleFailure m now).failureCount = m.failureCount + 1
    ∧ (handleFailure m now).lastFailureTime = now
    ∧ (handleFailure m now).state
        = (if m.failureCount + 1 ≥ FAILURE_THRESHOLD then SessionState.CIRCUIT_OPEN else m.state)
    ∧ (m.state = SessionState.AUTHENTICATED →
        (sendMessage m (DeliveryOutcome.delivered b) now).1.failureCount = 0)
    ∧ (m.state = SessionState.CIRCUIT_OPEN →
        (now - m.lastFailureTime > RESET_TIMEOUT →
          (monitorTick m now sig).1.state = SessionState.RECONNECTING
          ∧ (monitorTick m now sig).1.failureCount = 0
          ∧ (monitorTick m now sig).2.reloadRequested = true)
        ∧ (¬ now - m.lastFailureTime > RESET_TIMEOUT →
          (monitorTick m now sig).1 = m ∧ (monitorTick m now sig).2.reloadRequested = false)) := by
  refine ⟨rfl, rfl, ?_, ?_, ?_, ?_, ?_⟩
  · simp only [handleFailure, FAILURE_THRESHOLD]; split <;> rfl
  · simp only [handleFailure, FAILURE_THRESHOLD]; split <;> rfl
  · simp only [handleFailure, FAILURE_THRESHOLD, ge_iff_le]; split <;> simp_all
  · intro hst; simp [sendMessage, deliveryEnter, hst]
  · intro hst
    refine ⟨fun hcool => ?_, fun hcool => ?_⟩ <;> simp [monitorTick, hst, hcool]

theorem circuit_breaker_behavior_witness :
    (handleFailure ⟨SessionState.AUTHENTICATED, none, false, 4, 0⟩ 7).failureCount = 4 + 1
    ∧ (sendMessage ⟨SessionState.AUTHENTICATED, none, false, 4, 0⟩
        (DeliveryOutcome.delivered true) 7).1.failureCount = 0
    ∧ (monitorTick ⟨SessionState.CIRCUIT_OPEN, none, false, 5, 0⟩ 300001
        ⟨false, false, none, false, false, false⟩).1.state = SessionState.RECONNECTING :=
  ⟨(circuit_breaker_behavior ⟨SessionState.AUTHENTICATED, none, false, 4, 0⟩ 7
      ⟨false, false, none, false, false, false⟩ true).2.2.1,
   (circuit_breaker_behavior ⟨SessionState.AUTHENTICATED, none, false, 4, 0⟩ 7
      ⟨false, false, none, false, false, false⟩ true).2.2.2.2.2.1 rfl,
   (((circuit_breaker_behavior ⟨SessionState.CIRCUIT_OPEN, none, false, 5, 0⟩ 300001
      ⟨false, false, none, false, false, false⟩ true).2.2.2.2.2.2 rfl).1 (by decide)).1⟩

/-- C5: the admission ramp: the limit is `min(100 + 50 * daysActive, 2000)` with
`daysActive = floor((today - startDate) / 1 day)` (so days 0, 1, 38, 100 give
limits 100, 150, 2000, 2000); the daily counter is incremented before the
comparison, the job is rejected as cap-exceeded exactly when the post-increment
value exceeds the limit, and the increment is never rolled back, so the counter
is monotonically non-decreasing. -/
theorem admission_ramp (c : Nat) (nowMs startMs : Int) :
    dynamicLimit 0 = 100 ∧ dynamicLimit 1 = 150
    ∧ dynamicLimit 38 = 2000 ∧ dynamicLimit 100 = 2000
    ∧ (admitJob c nowMs startMs).newCount = c + 1
    ∧ ((admitJob c nowMs startMs).capExceeded = true
        ↔ c + 1 > dynamicLimit (daysSinceStart nowMs startMs).toNat)
    ∧ c ≤ (admitJob c nowMs startMs).newCount
    ∧ (startMs ≤ nowMs → daysSinceStart nowMs startMs = (nowMs - startMs).fdiv 86400000) := by
  refine ⟨rfl, rfl, rfl, rfl, rfl, ?_, Nat.le_succ c, ?_⟩
  · simp [admitJob]
  · intro h
    have h0 : (0 : Int) ≤ (nowMs - startMs).fdiv 86400000 :=
      Int.fdiv_nonneg (sub_nonneg.mpr h) (by norm_num)
    simpa [daysSinceStart] using max_eq_right h0

theorem admission_ramp_witness :
    (admitJob 149 (86400000 : Int) 0).newCount = 149 + 1
    ∧ ((admitJob 149 (86400000 : Int) 0).capExceeded = true
        ↔ 149 + 1 > dynamicLimit (daysSinceStart (86400000 : Int) 0).toNat)
    ∧ daysSinceStart (86400000 : Int) 0 = ((86400000 : Int) - 0).fdiv 86400000 :=
  ⟨(admission_ramp 149 86400000 0).2.2.2.2.1,
   (admission_ramp 149 86400000 0).2.2.2.2.2.1,
   (admission_ramp 149 86400000 0).2.2.2.2.2.2.2 (by norm_num)⟩

/-- C6 counterexample: the claim says a job failing with the not-authenticated
kind is not retried, but with the queue as configured (`defaultJobOptions`,
`attempts: 3`, no kind marked non-retryable anywhere in the repository) such a
job failing on its first attempt is retried. -/
theorem terminal_kinds_not_retried_counterexample :
    ¬ (jobRetried ErrKind.notAuthenticated 1 = false) := by decide

/-- C6 (amended): the queue configuration retries every thrown error alike —
including invalid-recipient, not-authenticated, cap-exceeded and circuit-open —
with 3 attempts and exponential backoff of base 1000 ms; no error kind is marked
non-retryable, so a job failing on attempt `a` is retried exactly when `a < 3`. -/
theorem queue_retries_every_error_kind (k : ErrKind) (a : Nat) :
    defaultJobOptions.attempts = 3
    ∧ defaultJobOptions.backoffExponentialDelayMs = 1000
    ∧ markedNonRetryable k = false
    ∧ (jobRetried k a = true ↔ a < 3)
    ∧ backoffDelayMs defaultJobOptions 1 = 1000
    ∧ backoffDelayMs defaultJobOptions 2 = 2000
    ∧ backoffDelayMs defaultJobOptions 3 = 4000 := by
  refine ⟨rfl, rfl, rfl, ?_, rfl, rfl, rfl⟩
  simp [jobRetried, queueRetriesAfterThrow, markedNonRetryable, defaultJobOptions]

/-- C8: at the failing input — the quarantine timer confirms the ban but the
audit HTML snapshot `await page.content()` throws — the state becomes `BANNED`
while the `banned` event is not emitted, so the handler in src/index.ts that
persists `wa:banned` and pauses the queue never runs; whereas whenever the
event is emitted, the handler does set the flag and pause the queue, the flag
is never cleared by any program step, and a fresh start with the flag set
leaves the session and browser uninitialized. -/
theorem ban_confirmed_snapshot_throw :
    (quarantineFire ⟨SessionState.SUSPECTED_BAN, none, false, 0, 0⟩ (some true) false).1.state
      = SessionState.BANNED
    ∧ (quarantineFire ⟨SessionState.SUSPECTED_BAN, none, false, 0, 0⟩ (some true) false).2
      = false
    ∧ (sysStep ⟨false, false, true, true⟩ SysEvent.bannedEvt).banFlag = true
    ∧ (sysStep ⟨false, false, true, true⟩ SysEvent.bannedEvt).queuePaused = true
    ∧ (sysStep ⟨true, true, false, false⟩ SysEvent.freshStart).sessionInited = false
    ∧ (sysStep ⟨true, true, false, false⟩ SysEvent.freshStart).browserUp = false
    ∧ (sysStep ⟨true, true, false, false⟩ (SysEvent.restartReq true)).banFlag = true
    ∧ (sysStep ⟨true, true, false, false⟩ (SysEvent.restartReq false)).banFlag = true := by
  decide

/-- C9: the delivery-in-progress suppression: entering the delivery procedure
sets `isSending`; a monitor tick in `AUTHENTICATED` evaluates the disconnect
check exactly when `isSending` is clear, and does nothing at all while it is
set; and `sendMessage` leaves `isSending` clear on every exit path of the
delivery procedure — success, invalid recipient, or any other failure. -/
theorem delivery_suppression (m : Mgr) (o : DeliveryOutcome) (now : Nat) (sig : DomSignals) :
    (deliveryEnter m).isSending = true
    ∧ (m.state = SessionState.AUTHENTICATED → m.isSending = true →
        monitorTick m now sig = (m, ⟨false, false, none⟩))
    ∧ (m.state = SessionState.AUTHENTICATED →
        (monitorTick m now sig).2.checkedDisconnect = !m.isSending)
    ∧ (m.state = SessionState.AUTHENTICATED →
        (sendMessage m o now).1.isSending = false) := by
  refine ⟨rfl, ?_, ?_, ?_⟩
  · intro hst hsnd; simp [monitorTick, hst, hsnd]
  · intro hst
    by_cases hsnd : m.isSending = true
    · simp [monitorTick, hst, hsnd]
    · simp only [Bool.not_eq_true] at hsnd
      by_cases hp : sig.hasMainPane = false <;> simp [monitorTick, hst, hsnd, hp]
  · intro hst
    cases o <;> simp [sendMessage, deliveryEnter, handleFailure, hst]

theorem delivery_suppression_witness :
    monitorTick ⟨SessionState.AUTHENTICATED, none, true, 0, 0⟩ 0
        ⟨false, false, none, false, false, false⟩
      = (⟨SessionState.AUTHENTICATED, none, true, 0, 0⟩, ⟨false, false, none⟩)
    ∧ (sendMessage ⟨SessionState.AUTHENTICATED, none, false, 0, 0⟩
        DeliveryOutcome.failure 0).1.isSending = false :=
  ⟨(delivery_suppression ⟨SessionState.AUTHENTICATED, none, true, 0, 0⟩
      DeliveryOutcome.failure 0 ⟨false, false, none, false, false, false⟩).2.1 rfl rfl,
   (delivery_suppression ⟨SessionState.AUTHENTICATED, none, false, 0, 0⟩
      DeliveryOutcome.failure 0 ⟨false, false, none, false, false, false⟩).2.2.2 rfl⟩

theorem mgrStep_suspectedBan_fixed (m : Mgr) (h : m.state = SessionState.SUSPECTED_BAN)
    (e : MgrEvent) : mgrStep m e = m := by
  cases e with
  | tick now sig => simp [mgrStep, monitorTick, h]
  | timerErr => rfl
  | send o now => simp [mgrStep, sendMessage, h]

/-- C10: if the single quarantine re-verification sample throws, the error is
swallowed, nothing is rescheduled, and the state stays `SUSPECTED_BAN` under
every further sequence of monitor ticks, failed timer firings and `sendMessage`
calls: the monitor loop skips all checks in `SUSPECTED_BAN` and the delivery
guard rejects without touching the state, so no transition out of
`SUSPECTED_BAN` can occur without external intervention. -/
theorem suspected_ban_stuck (m : Mgr) (es : List MgrEvent)
    (h : m.state = SessionState.SUSPECTED_BAN) :
    (∀ snap, quarantineFire m none snap = (m, false))
    ∧ (∀ now sig, monitorTick m now sig = (m, ⟨false, false, none⟩))
    ∧ (es.foldl mgrStep m).state = SessionState.SUSPECTED_BAN := by
  refine ⟨fun snap => rfl, fun now sig => by simp [monitorTick, h], ?_⟩
  have hfold : es.foldl mgrStep m = m := by
    induction es with
    | nil => rfl
    | cons e tl ih => rw [List.foldl_cons, mgrStep_suspectedBan_fixed m h e]; exact ih
  rw [hfold, h]

theorem suspected_ban_stuck_witness :
    (([MgrEvent.timerErr,
       MgrEvent.tick 0 ⟨false, false, none, false, false, false⟩,
       MgrEvent.send DeliveryOutcome.failure 5].foldl mgrStep
        ⟨SessionState.SUSPECTED_BAN, none, false, 0, 0⟩).state
      = SessionState.SUSPECTED_BAN)
    ∧ quarantineFire ⟨SessionState.SUSPECTED_BAN, none, false, 0, 0⟩ none true
      = (⟨SessionState.SUSPECTED_BAN, none, false, 0, 0⟩, false) :=
  ⟨(suspected_ban_stuck ⟨SessionState.SUSPECTED_BAN, none, false, 0, 0⟩
      [MgrEvent.timerErr,
       MgrEvent.tick 0 ⟨false, false, none, false, false, false⟩,
       MgrEvent.send DeliveryOutcome.failure 5] rfl).2.2,
   (suspected_ban_stuck ⟨SessionState.SUSPECTED_BAN, none, false, 0, 0⟩ [] rfl).1 true⟩

theorem tokenValid_eq (s : QrStore) (tok : String) (now e : Nat) (h : s.tokens tok = some e) :
    tokenValid s tok now = decide (now < e) := by
  unfold tokenValid; rw [h]

theorem tokenValid_none (s : QrStore) (tok : String) (now : Nat) (h : s.tokens tok = none) :
    tokenValid s tok now = false := by
  unfold tokenValid; rw [h]

theorem tokenValid_iff (s : QrStore) (tok : String) (now : Nat) :
    tokenValid s tok now = true ↔ ∃ e, s.tokens tok = some e ∧ now < e := by
  unfold tokenValid
  rcases h : s.tokens tok with _ | e <;> simp [h]

theorem generate_active (s : QrStore) (tok : String) (now : Nat) :
    (generateQrToken s tok now).active = some (tok, now + 60) := by
  unfold generateQrToken; simp

theorem generate_tokens_self (s : QrStore) (tok : String) (now : Nat) :
    (generateQrToken s tok now).tokens tok = some (now + 60) := by
  unfold generateQrToken; simp

theorem generate_tokens_other (s : QrStore) (tok k : String) (now : Nat) (hk : k ≠ tok) :
    (generateQrToken s tok now).tokens k
      = (match validActiveTok s now with
         | some old => if k = old then none else s.tokens k
         | none => s.tokens k) := by
  unfold generateQrToken
  rcases h : validActiveTok s now with _ | old <;> simp [h, hk]

theorem qrInv_mono (s : QrStore) (n n' : Nat) (h : n ≤ n') (hv : qrInv s n) : qrInv s n' :=
  fun tok e he hlt => hv tok e he (lt_of_le_of_lt h hlt)

theorem qrInv_generate (s : QrStore) (tok : String) (now : Nat) (hv : qrInv s now) :
    qrInv (generateQrToken s tok now) now := by
  intro k e hk hlt
  rw [generate_active]
  by_cases hkt : k = tok
  · subst hkt
    rw [generate_tokens_self] at hk
    injection hk with hk
    rw [hk]
  · rw [generate_tokens_other s tok k now hkt] at hk
    rcases h : validActiveTok s now with _ | old
    · rw [h] at hk
      simp only at hk
      have ha := hv k e hk hlt
      unfold validActiveTok at h
      rw [ha] at h
      simp [hlt] at h
    · rw [h] at hk
      simp only at hk
      by_cases hko : k = old
      · simp [hko] at hk
      · simp [hko] at hk
        have ha := hv k e hk hlt
        unfold validActiveTok at h
        rw [ha] at h
        simp [hlt] at h
        exact absurd h hko

theorem qrInv_read (s : QrStore) (tok : String) (now : Nat) (hv : qrInv s now) :
    qrInv (readQrToken s tok now).1 now := by
  intro k e hk hlt
  unfold readQrToken at hk ⊢
  by_cases ht : tokenValid s tok now = true
  · simp only [ht, if_pos] at hk ⊢
    by_cases hkt : k = tok
    · simp [hkt] at hk
    · simp only [hkt, if_neg, ite_false] at hk
      obtain ⟨e2, h2, l2⟩ := (tokenValid_iff s tok now).mp ht
      have ha := hv k e hk hlt
      have ha2 := hv tok e2 h2 l2
      have h3 := ha.symm.trans ha2
      simp at h3
      exact absurd h3.1 hkt
  · simp only [Bool.not_eq_true] at ht
    simp only [ht, Bool.false_eq_true, if_neg, ite_false] at hk ⊢
    exact hv k e hk hlt

theorem qrInv_atMostOne (s : QrStore) (now : Nat) (hv : qrInv s now)
    (t1 t2 : String) (h1 : tokenValid s t1 now = true) (h2 : tokenValid s t2 now = true) :
    t1 = t2 := by
  obtain ⟨x1, e1, l1⟩ := (tokenValid_iff s t1 now).mp h1
  obtain ⟨x2, e2, l2⟩ := (tokenValid_iff s t2 now).mp h2
  have a1 := hv t1 x1 e1 l1
  have a2 := hv t2 x2 e2 l2
  have h3 := a1.symm.trans a2
  simp at h3
  exact h3.1

theorem generate_invalidates_old (s : QrStore) (A B : String) (n1 n2 n3 : Nat)
    (hAB : A ≠ B) (h23 : n2 ≤ n3) :
    tokenValid (generateQrToken (generateQrToken s A n1) B n2) A n3 = false := by
  have hA2 := generate_tokens_other (generateQrToken s A n1) B A n2 hAB
  by_cases hlive : n2 < n1 + 60
  · have hv : validActiveTok (generateQrToken s A n1) n2 = some A := by
      unfold validActiveTok; rw [generate_active]; simp [hlive]
    rw [hv] at hA2
    simp only [if_pos] at hA2
    exact tokenValid_none _ A n3 (by simpa using hA2)
  · have hv : validActiveTok (generateQrToken s A n1) n2 = none := by
      unfold validActiveTok; rw [generate_active]; simp [hlive]
    rw [hv] at hA2
    simp only at hA2
    rw [generate_tokens_self] at hA2
    rw [tokenValid_eq _ A n3 (n1 + 60) hA2]
    simp
    omega

theorem read_burns (s : QrStore) (tok : String) (n n' : Nat)
    (h : (readQrToken s tok n).2 = true) :
    (readQrToken (readQrToken s tok n).1 tok n').2 = false := by
  unfold readQrToken at h ⊢
  by_cases ht : tokenValid s tok n = true
  · simp only [ht, if_pos]
    have hb : tokenValid
        ⟨none, fun k => if k = tok then none else s.tokens k⟩ tok n' = false :=
      tokenValid_none _ tok n' (by simp)
    simp [hb]
  · simp [ht] at h

theorem token_expires (s : QrStore) (tok : String) (now mo : Nat) (h : now + 60 ≤ mo) :
    tokenValid (generateQrToken s tok now) tok mo = false := by
  rw [tokenValid_eq _ tok mo (now + 60) (generate_tokens_self s tok now)]
  simp only [decide_eq_false_iff_not]
  omega

/-- C7: the QR-token single-active policy: after issuing token `A` and then
token `B`, any later read of `A` fails (issuing deletes the previously active
token, and even an already-expired predecessor can no longer validate); a fresh
token reads successfully while live and is burned by that first successful
read, so a second read fails; every stored token expires 60 seconds after
issuance; and the single-active invariant — every valid stored token is the
active one, so at most one token is valid at any instant — is preserved by both
the issue and the read operations and under the passage of time. -/
theorem qr_token_single_active (s : QrStore) (A B : String) (n1 n2 n3 : Nat)
    (hAB : A ≠ B) (h23 : n2 ≤ n3) :
    tokenValid (generateQrToken (generateQrToken s A n1) B n2) A n3 = false
    ∧ (readQrToken (generateQrToken (generateQrToken s A n1) B n2) A n3).2 = false
    ∧ (n3 < n2 + 60 →
        (readQrToken (generateQrToken (generateQrToken s A n1) B n2) B n3).2 = true)
    ∧ (∀ st : QrStore, ∀ tok : String, ∀ n n' : Nat, (readQrToken st tok n).2 = true →
        (readQrToken (readQrToken st tok n).1 tok n').2 = false)
    ∧ (∀ mo, n1 + 60 ≤ mo → tokenValid (generateQrToken s A n1) A mo = false)
    ∧ (∀ st : QrStore, ∀ n : Nat, qrInv st n →
        (∀ n', n ≤ n' → qrInv st n')
        ∧ qrInv (generateQrToken st A n) n
        ∧ qrInv (readQrToken st A n).1 n
        ∧ (∀ t1 t2, tokenValid st t1 n = true → tokenValid st t2 n = true → t1 = t2)) := by
  have hInvalid := generate_invalidates_old s A B n1 n2 n3 hAB h23
  refine ⟨hInvalid, ?_, ?_, read_burns, token_expires s A n1, ?_⟩
  · unfold readQrToken
    simp [hInvalid]
  · intro hlive
    have hB : tokenValid (generateQrToken (generateQrToken s A n1) B n2) B n3 = true := by
      rw [tokenValid_eq _ B n3 (n2 + 60) (generate_tokens_self _ B n2)]
      simpa using hlive
    unfold readQrToken
    simp [hB]
  · intro st n hv
    exact ⟨fun n' hn => qrInv_mono st n n' hn hv, qrInv_generate st A n hv,
      qrInv_read st A n hv, qrInv_atMostOne st n hv⟩

theorem qr_token_single_active_witness :
    tokenValid (generateQrToken (generateQrToken emptyQrStore "a" 0) "b" 10) "a" 20 = false
    ∧ (readQrToken (generateQrToken (generateQrToken emptyQrStore "a" 0) "b" 10) "a" 20).2
      = false
    ∧ (readQrToken (generateQrToken (generateQrToken emptyQrStore "a" 0) "b" 10) "b" 20).2
      = true :=
  ⟨(qr_token_single_active emptyQrStore "a" "b" 0 10 20 (by decide) (by decide)).1,
   (qr_token_single_active emptyQrStore "a" "b" 0 10 20 (by decide) (by decide)).2.1,
   (qr_token_single_active emptyQrStore "a" "b" 0 10 20 (by decide)
      (by decide)).2.2.1 (by decide)⟩
